import Mathlib

/-!
Shallow embedding of `src/cleanup_daemon.py` (a log-retention daemon) together
with proofs checking the repository's specification against it.

Modelling conventions:
* File sizes and timestamps are Python `int`/`float` values used only in
  comparisons and exact sums; they are embedded as `Int` (no claim depends on
  fractional parts of timestamps).
* `Path.unlink` can fail (the source logs and swallows the exception); each
  eviction pass takes an oracle `unlinkOk : String → Bool` telling which
  `unlink` calls succeed.  The scanner produces one record per path (its
  `current_files` dict is keyed by path and `rglob` yields each path once),
  so a path is unlinked at most once per pass.
* The registry `Dict[str, List[FileInfo]]` is embedded as an association list
  with Python-dict update semantics (update in place, append if absent;
  iteration order is insertion order).
* Python's `list.sort` is stable, and a stable sort under a total preorder
  has a unique result, so the stable `List.insertionSort` (which the kernel
  can evaluate on concrete inputs) is an exact embedding of the source's
  `files.sort(key=lambda x: x.mtime)`.
* String primitives (`strip`, `lower`, `split`, `int(...)`, `float(...)`) are
  embedded as character-list functions so that concrete configuration strings
  evaluate inside the kernel.
-/

/-- The `FileInfo` dataclass (cleanup_daemon.py lines 35-41). -/
structure FileInfo where
  path : String
  size : Int
  mtime : Int
  relative_path : String
deriving DecidableEq, Repr

/-- The comparison key of `files.sort(key=lambda x: x.mtime)`. -/
def mtimeLe (a b : FileInfo) : Prop := a.mtime ≤ b.mtime

instance : DecidableRel mtimeLe := fun a b => Int.decLe a.mtime b.mtime

instance : IsTotal FileInfo mtimeLe := ⟨fun a b => Int.le_total a.mtime b.mtime⟩

instance : IsTrans FileInfo mtimeLe := ⟨fun _ _ _ hab hbc => Int.le_trans hab hbc⟩

/-- `files.sort(key=lambda x: x.mtime)` (lines 240 and 273): oldest first,
ties kept in list order (stable). -/
def sortByMtime (files : List FileInfo) : List FileInfo :=
  files.insertionSort mtimeLe

/-- `self.file_registry : Dict[str, List[FileInfo]]` (line 62). -/
abbrev Registry := List (String × List FileInfo)

/-- `self.file_registry.get(directory, [])`. -/
def Registry.get : Registry → String → List FileInfo
  | [], _ => []
  | e :: rest, d => if e.1 = d then e.2 else Registry.get rest d

/-- `self.file_registry[directory] = files`: Python dict assignment (replace
in place when the key is present, append otherwise). -/
def Registry.set : Registry → String → List FileInfo → Registry
  | [], d, files => [(d, files)]
  | e :: rest, d, files =>
    if e.1 = d then (d, files) :: rest else e :: Registry.set rest d files

/-- `_cleanup_by_time` (lines 204-227): partition on `mtime < cutoff`, attempt
to unlink every expired file, then set the registry entry to `to_keep`, which
was computed BEFORE any deletion (`to_keep = [f for f in files if f not in
to_remove]`).  The returned count increments only on a successful unlink. -/
def cleanupByTime (unlinkOk : String → Bool) (now retention_seconds : Int)
    (files : List FileInfo) : List FileInfo × Nat :=
  let cutoff_time := now - retention_seconds
  let to_remove := files.filter (fun f => decide (f.mtime < cutoff_time))
  let to_keep := files.filter (fun f => !decide (f ∈ to_remove))
  (to_keep, (to_remove.filter (fun f => unlinkOk f.path)).length)

/-- `_cleanup_by_count` (lines 229-260): after an in-place stable sort by
mtime, `to_remove = files[:need_remove]` and `to_keep = files[need_remove:]`;
the registry entry becomes `to_keep` regardless of unlink failures, and the
count increments only on a successful unlink. -/
def cleanupByCount (unlinkOk : String → Bool) (max_files_per_dir : Int)
    (files : List FileInfo) : List FileInfo × Nat :=
  let current_count := files.length
  if (current_count : Int) ≤ max_files_per_dir then (files, 0)
  else
    let need_remove := ((current_count : Int) - max_files_per_dir).toNat
    let sorted := sortByMtime files
    let to_remove := sorted.take need_remove
    let to_keep := sorted.drop need_remove
    (to_keep, (to_remove.filter (fun f => unlinkOk f.path)).length)

/-- `sum(f.size for f in files)` (line 266). -/
def sumSizes (files : List FileInfo) : Int := (files.map (fun f => f.size)).sum

/-- The victim-selection loop of `_cleanup_by_size` (lines 277-281): walking
the sorted list with the running `current_size`, how many leading files are
appended to `to_remove` before `current_size <= max_size` stops the loop (or
the list runs out). -/
def sizeToRemoveCount (max_size : Int) : List FileInfo → Int → Nat
  | [], _ => 0
  | f :: rest, current_size =>
    if current_size ≤ max_size then 0
    else sizeToRemoveCount max_size rest (current_size - f.size) + 1

/-- `_cleanup_by_size` (lines 262-299): no-op below the cap, otherwise sort by
mtime, remove the prefix selected by the running-total loop, and set the
registry entry to `files[len(to_remove):]` regardless of unlink failures; the
count increments only on a successful unlink. -/
def cleanupBySize (unlinkOk : String → Bool) (max_size : Int)
    (files : List FileInfo) : List FileInfo × Nat :=
  let total_size := sumSizes files
  if total_size ≤ max_size then (files, 0)
  else
    let sorted := sortByMtime files
    let k := sizeToRemoveCount max_size sorted total_size
    let to_remove := sorted.take k
    let to_keep := sorted.drop k
    (to_keep, (to_remove.filter (fun f => unlinkOk f.path)).length)

/-- The filesystem as seen by one cleanup cycle: which directories exist
(with the listing `_scan_directory`'s `rglob` walk produces for them) and
which `unlink` calls succeed. -/
structure FsModel where
  dirs : List (String × List FileInfo)
  unlinkOk : String → Bool

/-- `_scan_directory` (lines 167-194): a missing directory logs a warning and
returns at line 172 WITHOUT touching the registry; an existing directory's
snapshot replaces the registry entry wholesale (line 194). -/
def scanDirectory (fs : FsModel) (reg : Registry) (directory : String) : Registry :=
  match fs.dirs.lookup directory with
  | none => reg
  | some listing => Registry.set reg directory listing

/-- A non-negative Python decimal literal `mantissa / 10 ^ exp` (the shape
`float(...)` is given in this program). -/
structure PyFloat where
  mantissa : Nat
  exp : Nat
deriving DecidableEq, Repr

/-- The `CleanupConfig` dataclass (lines 44-55). -/
structure CleanupConfig where
  directories : List String
  retention_seconds : Int
  max_files_per_dir : Int
  max_disk_size_bytes : Int
  scan_interval : Int
  heartbeat_interval : Int
  cpu_threshold : PyFloat
  state_file : String
  heartbeat_timeout : Int
deriving DecidableEq, Repr

/-- The daemon state one `_perform_cleanup` call can touch: the registry, the
heartbeat timestamp, and the persisted state-file content (`none` before the
first successful `_save_state`). -/
structure DaemonState where
  file_registry : Registry
  last_heartbeat : Int
  saved_state : Option Registry
deriving DecidableEq, Repr

/-- One directory's slice of `_perform_cleanup` (lines 308-317): scan, then
the three policies in the fixed order age → count → size, each reading and
rewriting the registry entry.  Also returns the per-policy removal counts the
source logs at lines 314-317. -/
def cleanupDirectory (fs : FsModel) (cfg : CleanupConfig) (now : Int)
    (reg : Registry) (directory : String) : Registry × (Nat × Nat × Nat) :=
  let reg1 := scanDirectory fs reg directory
  let rt := cleanupByTime fs.unlinkOk now cfg.retention_seconds (Registry.get reg1 directory)
  let reg2 := Registry.set reg1 directory rt.1
  let rc := cleanupByCount fs.unlinkOk cfg.max_files_per_dir (Registry.get reg2 directory)
  let reg3 := Registry.set reg2 directory rc.1
  let rs := cleanupBySize fs.unlinkOk cfg.max_disk_size_bytes (Registry.get reg3 directory)
  let reg4 := Registry.set reg3 directory rs.1
  (reg4, (rt.2, rc.2, rs.2))

/-- `_perform_cleanup` (lines 301-322).  `cpuBusy` is the sampled result of
`_is_cpu_busy()`.  When it is true the method returns at line 305, BEFORE the
heartbeat update at lines 320-322, so no field of the state changes.  On a
non-skipped cycle every configured directory is scanned and cleaned, the
registry is persisted (`_save_state`; modelled as succeeding — its error
handler plays no role in the claims below), and `last_heartbeat` is set to
the current time.  The second component lists the per-directory removal
counts the source logs (empty for a skipped cycle). -/
def performCleanup (cpuBusy : Bool) (fs : FsModel) (cfg : CleanupConfig)
    (now : Int) (s : DaemonState) : DaemonState × List (String × Nat × Nat × Nat) :=
  if cpuBusy then (s, [])
  else
    let step := fun (acc : Registry × List (String × Nat × Nat × Nat)) (d : String) =>
      let r := cleanupDirectory fs cfg now acc.1 d
      (r.1, acc.2 ++ [(d, r.2)])
    let result := cfg.directories.foldl step (s.file_registry, [])
    ({ file_registry := result.1, last_heartbeat := now,
       saved_state := some result.1 }, result.2)

/-- The liveness-relevant daemon flags: `self.running`, whether the current
`self.cleanup_thread` object is alive, and `self.last_heartbeat`. -/
structure WorkerState where
  running : Bool
  cleanup_alive : Bool
  last_heartbeat : Int
deriving DecidableEq, Repr

/-- `_stop_cleanup_thread` (lines 380-388): sets `self.running = False` — the
flag is never set back to `True` afterwards (only the one-shot `start()` at
line 406 ever assigns `True`) — and joins the thread with a 10 s bound.  The
worker loop re-checks `self.running` at least once per second, so the join is
modelled as completing: the old thread is dead afterwards (the claim analysed
with this model does not depend on the join racing its bound). -/
def stopCleanupThread (w : WorkerState) : WorkerState :=
  if w.cleanup_alive then { w with running := false, cleanup_alive := false }
  else w

/-- `_start_cleanup_thread` (lines 374-378): spawns a fresh thread running
`_cleanup_loop`.  It does NOT touch `self.running`. -/
def startCleanupThread (w : WorkerState) : WorkerState :=
  { w with cleanup_alive := true }

/-- One tick of the `_heartbeat_monitor` loop body (lines 352-368). -/
def heartbeatMonitorTick (heartbeat_timeout : Int) (now : Int)
    (w : WorkerState) : WorkerState :=
  let timedOut := heartbeat_timeout < now - w.last_heartbeat
  if !w.cleanup_alive then startCleanupThread w
  else if timedOut then startCleanupThread (stopCleanupThread w)
  else w

/-- How many `_perform_cleanup` cycles a `_cleanup_loop` thread (lines
390-402) executes within `fuel` iterations of its `while self.running` loop,
as a function of the `running` flag it observes (constant here: between a
`_stop_cleanup_thread` and process restart nothing flips the flag). -/
def cleanupLoopCycles (fuel : Nat) (running : Bool) : Nat :=
  match fuel with
  | 0 => 0
  | Nat.succ n => if running then cleanupLoopCycles n running + 1 else 0

/-- `DEFAULT_CONFIG` (lines 22-32). -/
def DEFAULT_CONFIG (key : String) : String :=
  if key = "CLEANUP_DIRECTORIES" then "/var/log"
  else if key = "RETENTION_DAYS" then "3"
  else if key = "MAX_FILES_PER_DIR" then "10000"
  else if key = "MAX_DISK_SIZE_MB" then "10240"
  else if key = "SCAN_INTERVAL" then "300"
  else if key = "HEARTBEAT_INTERVAL" then "300"
  else if key = "CPU_THRESHOLD" then "80.0"
  else if key = "STATE_FILE" then "/tmp/cleanup_daemon_state.json"
  else if key = "HEARTBEAT_TIMEOUT" then "600"
  else ""

/-- Python `str.strip()`. -/
def pyStrip (cs : List Char) : List Char :=
  ((cs.dropWhile Char.isWhitespace).reverse.dropWhile Char.isWhitespace).reverse

/-- Python `str.lower()` (ASCII domain here). -/
def pyLower (cs : List Char) : List Char := cs.map Char.toLower

/-- Python `str.split(sep)` for a one-character separator. -/
def pySplit (sep : Char) (s : String) : List String :=
  (s.toList.splitOn sep).map String.mk

/-- Value of a string of decimal digits, most significant first. -/
def digitsVal (cs : List Char) : Nat :=
  cs.foldl (fun a c => a * 10 + (c.toNat - 48)) 0

/-- A non-empty all-digit character list, or a failure. -/
def parseDigits? (cs : List Char) : Option Nat :=
  if !cs.isEmpty && cs.all Char.isDigit then some (digitsVal cs) else none

/-- Python `float(s)` restricted to strings of digits and dots — the only
strings `_parse_retention_time` ever passes to `float`, since its scanner
collects only characters with `c.isdigit() or c == '.'`.  On that domain
`float` succeeds exactly when there is at least one digit and at most one
dot. -/
def parseDecimal? (cs : List Char) : Option PyFloat :=
  match cs.splitOn '.' with
  | [a] => (parseDigits? a).map (fun n => { mantissa := n, exp := 0 })
  | [a, b] =>
    if a.all Char.isDigit && b.all Char.isDigit && !(a.isEmpty && b.isEmpty) then
      some { mantissa := digitsVal a * 10 ^ b.length + digitsVal b, exp := b.length }
    else none
  | _ => none

/-- The `units` table of `_parse_retention_time` (line 85). -/
def unitSeconds (c : Char) : Nat :=
  if c = 's' then 1 else if c = 'm' then 60
  else if c = 'h' then 3600 else if c = 'd' then 86400 else 0

/-- The character scan of `_parse_retention_time` (lines 93-101): collect the
leading digits/dots into `num_str`; at the first other character set `unit`
when it is one of s/m/h/d and stop (everything after it is ignored).  Returns
`(num_str, unit)`; `unit` defaults to d. -/
def retentionScan : List Char → List Char × Char
  | [] => ([], 'd')
  | c :: rest =>
    if c.isDigit || c = '.' then
      let r := retentionScan rest
      (c :: r.1, r.2)
    else
      ([], if c = 's' || c = 'm' || c = 'h' || c = 'd' then c else 'd')

/-- `_parse_retention_time` (lines 83-109): any failure (empty string, no
digits, malformed number) is caught and falls back to the default of 3 days.
`int(float(num) * unit)` truncates the non-negative product, which is exactly
`(mantissa * unit) / 10 ^ exp` in natural-number division. -/
def parseRetentionTime (time_str : String) : Int :=
  let s := pyLower (pyStrip time_str.toList)
  if s.isEmpty then 3 * 86400
  else
    let r := retentionScan s
    match parseDecimal? r.1 with
    | none => 3 * 86400
    | some q => ((q.mantissa * unitSeconds r.2) / 10 ^ q.exp : Nat)

/-- Python `int(s)`: optional sign followed by decimal digits parses (after
stripping whitespace), anything else raises `ValueError`. -/
def pyInt? (s : String) : Option Int :=
  match pyStrip s.toList with
  | '-' :: rest => (parseDigits? rest).map (fun n => -(n : Int))
  | '+' :: rest => (parseDigits? rest).map (fun n => (n : Int))
  | cs => (parseDigits? cs).map (fun n => (n : Int))

/-- Python `float(s)` on the configuration strings of interest (non-negative
decimal literals such as the default `"80.0"`). -/
def pyFloat? (s : String) : Option PyFloat := parseDecimal? (pyStrip s.toList)

/-- An `int(get_env(key))` field of `_load_config`: the conversion is not
wrapped in any handler, so a malformed value raises — modelled as
`Except.error` carrying the offending key. -/
def intField (key : String) (get_env : String → String) : Except String Int :=
  match pyInt? (get_env key) with
  | none => Except.error key
  | some v => Except.ok v

/-- `_load_config` (lines 122-139) over an environment (`os.getenv` with the
`DEFAULT_CONFIG` fallback).  Only the retention value goes through the
protected `_parse_retention_time`; the other numeric conversions can raise,
which aborts `__init__` and hence daemon startup. -/
def loadConfig (env : List (String × String)) : Except String CleanupConfig := do
  let get_env := fun (key : String) => ((env.lookup key).getD (DEFAULT_CONFIG key))
  let directories := pySplit ',' (get_env "CLEANUP_DIRECTORIES")
  let retention_seconds := parseRetentionTime (get_env "RETENTION_DAYS")
  let max_files_per_dir ← intField "MAX_FILES_PER_DIR" get_env
  let max_disk_size_mb ← intField "MAX_DISK_SIZE_MB" get_env
  let scan_interval ← intField "SCAN_INTERVAL" get_env
  let heartbeat_interval ← intField "HEARTBEAT_INTERVAL" get_env
  let cpu_threshold ←
    match pyFloat? (get_env "CPU_THRESHOLD") with
    | none => Except.error "CPU_THRESHOLD"
    | some v => Except.ok v
  let heartbeat_timeout ← intField "HEARTBEAT_TIMEOUT" get_env
  return { directories := directories
           retention_seconds := retention_seconds
           max_files_per_dir := max_files_per_dir
           max_disk_size_bytes := max_disk_size_mb * 1024 * 1024
           scan_interval := scan_interval
           heartbeat_interval := heartbeat_interval
           cpu_threshold := cpu_threshold
           state_file := get_env "STATE_FILE"
           heartbeat_timeout := heartbeat_timeout }

instance instDecEqExcept {ε α : Type} [DecidableEq ε] [DecidableEq α] :
    DecidableEq (Except ε α)
  | Except.error e, Except.error f =>
    if h : e = f then isTrue (h ▸ rfl) else isFalse (fun hc => h (by cases hc; rfl))
  | Except.error _, Except.ok _ => isFalse (fun hc => Except.noConfusion hc)
  | Except.ok _, Except.error _ => isFalse (fun hc => Except.noConfusion hc)
  | Except.ok a, Except.ok b =>
    if h : a = b then isTrue (h ▸ rfl) else isFalse (fun hc => h (by cases hc; rfl))

/-- The JSON value fragment `json.dump`/`json.load` exchange for the state
file (object key order is preserved by Python dicts and by `json`). -/
inductive JVal where
  | jstr : String → JVal
  | jnum : Int → JVal
  | jarr : List JVal → JVal
  | jobj : List (String × JVal) → JVal

/-- One file's dict in `_save_state` (lines 334-339). -/
def saveFileInfo (f : FileInfo) : JVal :=
  JVal.jobj [("path", JVal.jstr f.path), ("size", JVal.jnum f.size),
             ("mtime", JVal.jnum f.mtime),
             ("relative_path", JVal.jstr f.relative_path)]

/-- The `state_data` document built by `_save_state` (lines 331-342). -/
def saveStateDoc (reg : Registry) : JVal :=
  JVal.jobj (reg.map (fun e => (e.1, JVal.jarr (e.2.map saveFileInfo))))

/-- The `FileInfo(path=fd['path'], ...)` reconstruction in
`_load_initial_state` (lines 150-157), typed: a field of the wrong shape is a
schema mismatch, which the source's handler turns into a load failure. -/
def loadFileInfo (v : JVal) : Option FileInfo :=
  match v with
  | JVal.jobj fields =>
    match fields.lookup "path", fields.lookup "size",
          fields.lookup "mtime", fields.lookup "relative_path" with
    | some (JVal.jstr p), some (JVal.jnum sz), some (JVal.jnum mt),
        some (JVal.jstr rp) =>
      some { path := p, size := sz, mtime := mt, relative_path := rp }
    | _, _, _, _ => none
  | _ => none

/-- The inner list comprehension of `_load_initial_state` (lines 150-157):
rebuild each directory's records, failing on any malformed element. -/
def loadRecords : List JVal → Option (List FileInfo)
  | [] => some []
  | v :: rest =>
    match loadFileInfo v, loadRecords rest with
    | some f, some fs => some (f :: fs)
    | _, _ => none

/-- The per-directory loop of `_load_initial_state` (lines 149-157). -/
def loadEntries : List (String × JVal) → Option Registry
  | [] => some []
  | e :: rest =>
    match e.2 with
    | JVal.jarr files =>
      match loadRecords files, loadEntries rest with
      | some fs, some r => some ((e.1, fs) :: r)
      | _, _ => none
    | _ => none

/-- `_load_initial_state`'s registry rebuild (lines 148-157).  The embedding
is all-or-nothing: any schema mismatch yields `none` (the source catches the
exception and logs a warning; the round-trip claim concerns the success
path). -/
def loadStateDoc (v : JVal) : Option Registry :=
  match v with
  | JVal.jobj entries => loadEntries entries
  | _ => none

/-- Sample records for concrete witnesses. -/
def fOld : FileInfo :=
  { path := "/var/log/app/old.log", size := 60, mtime := 0,
    relative_path := "app/old.log" }

def fMid : FileInfo :=
  { path := "/var/log/app/mid.log", size := 60, mtime := 50,
    relative_path := "app/mid.log" }

def fNew : FileInfo :=
  { path := "/var/log/app/new.log", size := 40, mtime := 95,
    relative_path := "app/new.log" }

def unlinkAllOk : String → Bool := fun _ => true

def unlinkNoneOk : String → Bool := fun _ => false

def unlinkFailOld : String → Bool := fun p => !decide (p = "/var/log/app/old.log")

def cfgSample : CleanupConfig :=
  { directories := ["/var/log"], retention_seconds := 259200,
    max_files_per_dir := 10000, max_disk_size_bytes := 10737418240,
    scan_interval := 300, heartbeat_interval := 300,
    cpu_threshold := { mantissa := 800, exp := 1 },
    state_file := "/tmp/cleanup_daemon_state.json", heartbeat_timeout := 600 }

def fsSample : FsModel :=
  { dirs := [("/var/log", [fOld, fNew])], unlinkOk := unlinkAllOk }

def dsSample : DaemonState :=
  { file_registry := [("/var/log", [fOld, fNew])], last_heartbeat := 0,
    saved_state := none }

example : (cleanupByTime unlinkNoneOk 100 10 [fOld, fNew]).1 = [fNew] := by decide

example : cleanupByCount unlinkAllOk 1 [fNew, fOld] = ([fNew], 1) := by decide

example : cleanupBySize unlinkAllOk 50 [fNew, fOld] = ([fNew], 1) := by decide

example : loadConfig [] = Except.ok cfgSample := by decide

example : loadConfig [("MAX_FILES_PER_DIR", "abc")] =
    Except.error "MAX_FILES_PER_DIR" := by decide

example : parseRetentionTime "2h" = 7200 := by decide

example : parseRetentionTime "garbage" = 259200 := by decide

example : parseRetentionTime " 3.5D " = 302400 := by decide

example : loadStateDoc (saveStateDoc [("/var/log", [fOld, fNew])]) =
    some [("/var/log", [fOld, fNew])] := by decide

/-! ### Helper lemmas (shared across claims) -/

/-- The kept list of the age pass is exactly the unexpired files: membership
in `to_remove` is (value) equality with some expired file, and `FileInfo`
equality determines `mtime`. -/
theorem cleanupByTime_fst (ok : String → Bool) (now ret : Int)
    (files : List FileInfo) :
    (cleanupByTime ok now ret files).1 =
      files.filter (fun f => !decide (f.mtime < now - ret)) := by
  show files.filter _ = files.filter _
  apply List.filter_congr
  intro f hf
  by_cases h : f.mtime < now - ret
  · simp [List.mem_filter, hf, h]
  · simp [List.mem_filter, h]

/-- An age pass over an entry with no expired file is the identity and
deletes nothing. -/
theorem cleanupByTime_stable (ok : String → Bool) (now ret : Int)
    (l : List FileInfo) (h : ∀ f ∈ l, ¬(f.mtime < now - ret)) :
    cleanupByTime ok now ret l = (l, 0) := by
  have hrem : l.filter (fun f => decide (f.mtime < now - ret)) = [] := by
    simp only [List.filter_eq_nil_iff]
    intro f hf
    simpa using h f hf
  unfold cleanupByTime
  simp [hrem]

/-- Updating a directory's entry then reading it back yields the update. -/
theorem Registry.get_set (reg : Registry) (d : String) (files : List FileInfo) :
    Registry.get (Registry.set reg d files) d = files := by
  induction reg with
  | nil => simp [Registry.set, Registry.get]
  | cons e rest ih =>
    by_cases h : e.1 = d
    · simp [Registry.set, Registry.get, h]
    · simp [Registry.set, Registry.get, h, ih]

theorem sortByMtime_sorted (files : List FileInfo) :
    (sortByMtime files).Sorted mtimeLe :=
  List.sorted_insertionSort mtimeLe files

theorem sortByMtime_perm (files : List FileInfo) :
    List.Perm (sortByMtime files) files :=
  List.perm_insertionSort mtimeLe files

theorem sortByMtime_length (files : List FileInfo) :
    (sortByMtime files).length = files.length :=
  (sortByMtime_perm files).length_eq

/-- In a list sorted by mtime, everything in `take n` is at most everything
in `drop n`. -/
theorem take_drop_mtime {l : List FileInfo} (h : l.Sorted mtimeLe) (n : Nat) :
    ∀ a ∈ l.take n, ∀ b ∈ l.drop n, a.mtime ≤ b.mtime := by
  have h2 : (l.take n ++ l.drop n).Pairwise mtimeLe := by
    rw [List.take_append_drop]
    exact h
  exact fun a ha b hb => (List.pairwise_append.mp h2).2.2 a ha b hb

/-- A running worker loop performs one cleanup cycle per loop iteration. -/
theorem cleanupLoopCycles_running (fuel : Nat) :
    cleanupLoopCycles fuel true = fuel := by
  induction fuel with
  | zero => rfl
  | succ n ih => simp [cleanupLoopCycles, ih]

/-- `sumSizes` only depends on the multiset of records. -/
theorem sumSizes_perm {l1 l2 : List FileInfo} (h : List.Perm l1 l2) :
    sumSizes l1 = sumSizes l2 := by
  unfold sumSizes
  exact (h.map (fun f => f.size)).sum_eq

/-- Both outcomes of the running-total loop of `_cleanup_by_size` leave the
remaining suffix at or below the cap (for a non-negative cap), and the loop
stops as soon as possible: before the selected prefix is fully removed the
remaining suffix still exceeds the cap. -/
theorem sizeToRemoveCount_spec (maxS : Int) (h0 : 0 ≤ maxS) :
    ∀ l : List FileInfo,
      sumSizes (l.drop (sizeToRemoveCount maxS l (sumSizes l))) ≤ maxS ∧
        ∀ j < sizeToRemoveCount maxS l (sumSizes l), maxS < sumSizes (l.drop j)
  | [] => by
    constructor
    · simpa [sizeToRemoveCount, sumSizes] using h0
    · intro j hj
      simp [sizeToRemoveCount] at hj
  | f :: rest => by
    have hsum : sumSizes (f :: rest) - f.size = sumSizes rest := by
      simp [sumSizes]
    by_cases hc : sumSizes (f :: rest) ≤ maxS
    · constructor
      · simp [sizeToRemoveCount, hc]
      · intro j hj
        simp [sizeToRemoveCount, hc] at hj
    · have ih := sizeToRemoveCount_spec maxS h0 rest
      constructor
      · simp only [sizeToRemoveCount, if_neg hc, hsum, List.drop_succ_cons]
        exact ih.1
      · intro j hj
        cases j with
        | zero =>
          simpa using lt_of_not_le hc
        | succ j2 =>
          simp only [sizeToRemoveCount, if_neg hc, hsum] at hj
          rw [List.drop_succ_cons]
          exact ih.2 j2 (by omega)

/-- The kept entry of the count-cap and size-cap passes does not depend on
which deletions succeed (count-cap form). -/
theorem cleanupByCount_fst_indep (ok ok2 : String → Bool) (maxC : Int)
    (files : List FileInfo) :
    (cleanupByCount ok maxC files).1 = (cleanupByCount ok2 maxC files).1 := by
  unfold cleanupByCount
  by_cases h : (files.length : Int) ≤ maxC <;> simp [h]

/-- The kept entry of the size-cap pass does not depend on which deletions
succeed. -/
theorem cleanupBySize_fst_indep (ok ok2 : String → Bool) (maxS : Int)
    (files : List FileInfo) :
    (cleanupBySize ok maxS files).1 = (cleanupBySize ok2 maxS files).1 := by
  unfold cleanupBySize
  by_cases h : sumSizes files ≤ maxS <;> simp [h]

/-- Successful-unlink count of a removed prefix never exceeds the number of
records dropped from the registry entry. -/
theorem dropTake_le (ok : String → Bool) (files : List FileInfo) (n : Nat) :
    (((sortByMtime files).take n).filter (fun f => ok f.path)).length ≤
      files.length - ((sortByMtime files).drop n).length := by
  have h1 := List.length_filter_le (fun f => ok f.path) ((sortByMtime files).take n)
  have h2 := List.length_take n (sortByMtime files)
  have h3 := List.length_drop n (sortByMtime files)
  have h4 := sortByMtime_length files
  omega

/-- If some dropped record's unlink failed, the successful-unlink count is
strictly below the number of records dropped. -/
theorem dropTake_account (ok : String → Bool) (files : List FileInfo) (n : Nat)
    (hx : ∃ f ∈ files, f ∉ (sortByMtime files).drop n ∧ ok f.path = false) :
    (((sortByMtime files).take n).filter (fun f => ok f.path)).length <
      files.length - ((sortByMtime files).drop n).length := by
  obtain ⟨f, hfin, hfnk, hfail⟩ := hx
  have hfs : f ∈ sortByMtime files := (sortByMtime_perm files).mem_iff.mpr hfin
  rw [← List.take_append_drop n (sortByMtime files)] at hfs
  have hftake : f ∈ (sortByMtime files).take n := by
    rcases List.mem_append.mp hfs with h | h
    · exact h
    · exact absurd h hfnk
  have hstrict : (((sortByMtime files).take n).filter (fun f => ok f.path)).length <
      ((sortByMtime files).take n).length :=
    List.length_filter_lt_length_iff_exists.mpr ⟨f, hftake, by simp [hfail]⟩
  have h2 := List.length_take n (sortByMtime files)
  have h3 := List.length_drop n (sortByMtime files)
  have h4 := sortByMtime_length files
  omega

/-- `loadFileInfo` inverts `saveFileInfo`. -/
theorem loadFileInfo_save (f : FileInfo) : loadFileInfo (saveFileInfo f) = some f := rfl

/-- A saved list of records loads back unchanged. -/
theorem loadRecords_save (files : List FileInfo) :
    loadRecords (files.map saveFileInfo) = some files := by
  induction files with
  | nil => rfl
  | cons f rest ih => simp [loadRecords, loadFileInfo_save, ih]

/-- A saved registry loads back entry for entry. -/
theorem loadEntries_save (reg : Registry) :
    loadEntries (reg.map (fun e => (e.1, JVal.jarr (e.2.map saveFileInfo)))) =
      some reg := by
  induction reg with
  | nil => rfl
  | cons e rest ih => simp [loadEntries, loadRecords_save, ih]

/-! ### Claim theorems -/

/-- Claim C1, counterexample: in a cycle whose CPU sample is busy
(`cpuBusy = true`) at time 100 over a daemon whose last heartbeat was 0, the
heartbeat timestamp is NOT refreshed: `_perform_cleanup` returns at line 305,
before the heartbeat update at lines 320-322, so it stays 0 instead of
becoming 100. -/
theorem performCleanup_skip_no_heartbeat_cex :
    (performCleanup true fsSample cfgSample 100 dsSample).1.last_heartbeat = 0 ∧
      ((0 : Int) = 100 → False) := by decide

/-- Claim C1 as amended: a CPU-gated cycle performs no scan, no evictions and
no persistence — the Registry, the persisted state and the filesystem are
untouched — but it also does NOT refresh the heartbeat timestamp: the entire
daemon state is returned unchanged and no removal is logged. -/
theorem performCleanup_skip_unchanged (fs : FsModel) (cfg : CleanupConfig)
    (now : Int) (s : DaemonState) :
    performCleanup true fs cfg now s = (s, []) := rfl

/-- Claim C2, counterexample: `fOld` is expired (mtime 0 against cutoff 90),
its deletion fails (`unlinkNoneOk` makes every unlink fail), and yet it does
NOT remain in the kept set of the Registry entry after the pass. -/
theorem cleanupByTime_failed_delete_dropped_cex :
    unlinkNoneOk fOld.path = false ∧ fOld.mtime < 100 - 10 ∧
      fOld ∉ (cleanupByTime unlinkNoneOk 100 10 [fOld, fNew]).1 := by decide

/-- Claim C2 as amended: a file whose deletion fails is NOT treated as still
present — the age pass drops every expired record from the Registry entry
regardless of deletion success.  The kept set is exactly the unexpired files,
it is independent of which deletions succeed, and only successfully deleted
files are counted in the returned total. -/
theorem cleanupByTime_keep_independent (ok ok2 : String → Bool) (now ret : Int)
    (files : List FileInfo) :
    (cleanupByTime ok now ret files).1 =
        files.filter (fun f => !decide (f.mtime < now - ret)) ∧
      (cleanupByTime ok now ret files).1 = (cleanupByTime ok2 now ret files).1 ∧
      (cleanupByTime ok now ret files).2 =
        ((files.filter (fun f => decide (f.mtime < now - ret))).filter
          (fun f => ok f.path)).length := by
  refine ⟨cleanupByTime_fst ok now ret files, ?_, rfl⟩
  rw [cleanupByTime_fst, cleanupByTime_fst]

/-- Claim C9: after one age pass no tracked file older than the cutoff
remains in the Registry entry (in this code even a failed deletion does not
keep it, see C2), and a second age pass at the same fixed time over the
resulting entry is the identity and removes zero further files — whatever the
deletion-success pattern of either pass. -/
theorem cleanupByTime_idempotent (ok ok2 : String → Bool) (now ret : Int)
    (files : List FileInfo) :
    (∀ f ∈ (cleanupByTime ok now ret files).1, ¬(f.mtime < now - ret)) ∧
      cleanupByTime ok2 now ret ((cleanupByTime ok now ret files).1) =
        ((cleanupByTime ok now ret files).1, 0) := by
  have hkeep := cleanupByTime_fst ok now ret files
  have hmem : ∀ f ∈ (cleanupByTime ok now ret files).1, ¬(f.mtime < now - ret) := by
    intro f hf
    rw [hkeep] at hf
    simpa using List.of_mem_filter hf
  exact ⟨hmem, cleanupByTime_stable ok2 now ret _ hmem⟩

/-- Witness for C9 at a concrete directory (first pass with failing deletes,
second pass removes nothing). -/
theorem cleanupByTime_idempotent_witness :
    cleanupByTime unlinkAllOk 100 10
        ((cleanupByTime unlinkNoneOk 100 10 [fOld, fNew]).1) =
      ((cleanupByTime unlinkNoneOk 100 10 [fOld, fNew]).1, 0) :=
  (cleanupByTime_idempotent unlinkNoneOk unlinkAllOk 100 10 [fOld, fNew]).2

/-- Claim C8, counterexample: scanning a directory that does not exist leaves
the Registry's accumulated prior entry (here `[fOld]`) in place instead of
yielding an empty result. -/
theorem scanDirectory_missing_keeps_prior_cex :
    Registry.get (scanDirectory { dirs := [], unlinkOk := unlinkAllOk }
        [("/var/log", [fOld])] "/var/log") "/var/log" = [fOld] ∧
      ([fOld] : List FileInfo) ≠ [] := by decide

/-- Claim C8 as amended: scanning an existing directory replaces — does not
merge with — the Registry's prior entry for that directory; scanning a
missing directory logs a warning and leaves the Registry completely
unchanged, so the accumulated prior entry (not an empty one) remains. -/
theorem scanDirectory_spec (fs : FsModel) (reg : Registry) (d : String) :
    (∀ listing, fs.dirs.lookup d = some listing →
        scanDirectory fs reg d = Registry.set reg d listing ∧
          Registry.get (scanDirectory fs reg d) d = listing) ∧
      (fs.dirs.lookup d = none → scanDirectory fs reg d = reg) := by
  constructor
  · intro listing h
    unfold scanDirectory
    rw [h]
    exact ⟨rfl, Registry.get_set reg d listing⟩
  · intro h
    unfold scanDirectory
    rw [h]

/-- Witness for C8 on a concrete filesystem: replacing a stale entry with the
fresh snapshot. -/
theorem scanDirectory_spec_witness :
    Registry.get (scanDirectory fsSample [("/var/log", [fMid])] "/var/log")
      "/var/log" = [fOld, fNew] :=
  ((scanDirectory_spec fsSample [("/var/log", [fMid])] "/var/log").1
    [fOld, fNew] (by decide)).2

/-- Claim C5: with a non-negative cap C, a directory whose tracked count
exceeds C holds exactly C records after the count-cap pass, and the dropped
records number N−C and are all at most as new (by mtime) as every kept
record — ties resolved by the deterministic stable sort; with N ≤ C the pass
returns the entry unchanged and removes nothing. -/
theorem cleanupByCount_cap (ok : String → Bool) (maxC : Int)
    (files : List FileInfo) :
    ((files.length : Int) ≤ maxC → cleanupByCount ok maxC files = (files, 0)) ∧
      (0 ≤ maxC → maxC < (files.length : Int) →
        ((cleanupByCount ok maxC files).1.length : Int) = maxC ∧
          ∃ removed : List FileInfo,
            (removed.length : Int) = (files.length : Int) - maxC ∧
              List.Perm (removed ++ (cleanupByCount ok maxC files).1) files ∧
              ∀ r ∈ removed, ∀ k ∈ (cleanupByCount ok maxC files).1,
                r.mtime ≤ k.mtime) := by
  constructor
  · intro h
    unfold cleanupByCount
    simp [h]
  · intro h0 hlt
    have hnot : ¬((files.length : Int) ≤ maxC) := by omega
    have hres : cleanupByCount ok maxC files =
        ((sortByMtime files).drop ((files.length : Int) - maxC).toNat,
         (((sortByMtime files).take ((files.length : Int) - maxC).toNat).filter
            (fun f => ok f.path)).length) := by
      unfold cleanupByCount
      simp [hnot]
    have hlen := sortByMtime_length files
    have hdrop := List.length_drop ((files.length : Int) - maxC).toNat (sortByMtime files)
    have htake := List.length_take ((files.length : Int) - maxC).toNat (sortByMtime files)
    refine ⟨?_, (sortByMtime files).take ((files.length : Int) - maxC).toNat,
      ?_, ?_, ?_⟩
    · rw [hres]
      simp only [hdrop, hlen]
      omega
    · simp only [htake, hlen]
      omega
    · rw [hres]
      simp only []
      rw [List.take_append_drop]
      exact sortByMtime_perm files
    · rw [hres]
      exact take_drop_mtime (sortByMtime_sorted files) _

/-- Witness for C5: three files, cap 1 — exactly one record is kept. -/
theorem cleanupByCount_cap_witness :
    ((cleanupByCount unlinkAllOk 1 [fNew, fOld, fMid]).1.length : Int) = 1 :=
  ((cleanupByCount_cap unlinkAllOk 1 [fNew, fOld, fMid]).2
    (by decide) (by decide)).1

/-- Claim C6: with a non-negative cap M, if the aggregate size exceeds M the
size-cap pass removes a prefix of the oldest-first ordering, stopping as soon
as the remaining total is ≤ M (before the prefix is fully removed the
remaining suffix still exceeds M), and the resulting aggregate is ≤ M; when
the aggregate is within the cap the pass returns the entry unchanged and
removes nothing. -/
theorem cleanupBySize_cap (ok : String → Bool) (maxS : Int)
    (files : List FileInfo) :
    (sumSizes files ≤ maxS → cleanupBySize ok maxS files = (files, 0)) ∧
      (0 ≤ maxS → maxS < sumSizes files →
        sumSizes (cleanupBySize ok maxS files).1 ≤ maxS ∧
          ∃ sorted removed : List FileInfo,
            List.Perm sorted files ∧ sorted.Sorted mtimeLe ∧
              removed ++ (cleanupBySize ok maxS files).1 = sorted ∧
              ∀ j < removed.length, maxS < sumSizes (sorted.drop j)) := by
  constructor
  · intro h
    unfold cleanupBySize
    simp [h]
  · intro h0 hlt
    have hnot : ¬(sumSizes files ≤ maxS) := by omega
    have hss : sumSizes files = sumSizes (sortByMtime files) :=
      (sumSizes_perm (sortByMtime_perm files)).symm
    have hres : cleanupBySize ok maxS files =
        ((sortByMtime files).drop
           (sizeToRemoveCount maxS (sortByMtime files) (sumSizes files)),
         (((sortByMtime files).take
             (sizeToRemoveCount maxS (sortByMtime files) (sumSizes files))).filter
            (fun f => ok f.path)).length) := by
      unfold cleanupBySize
      simp [hnot]
    have hspec := sizeToRemoveCount_spec maxS h0 (sortByMtime files)
    rw [← hss] at hspec
    refine ⟨?_, sortByMtime files,
      (sortByMtime files).take
        (sizeToRemoveCount maxS (sortByMtime files) (sumSizes files)),
      sortByMtime_perm files, sortByMtime_sorted files, ?_, ?_⟩
    · rw [hres]
      exact hspec.1
    · rw [hres]
      exact List.take_append_drop _ _
    · intro j hj
      apply hspec.2
      have := List.length_take
        (sizeToRemoveCount maxS (sortByMtime files) (sumSizes files))
        (sortByMtime files)
      omega

/-- Witness for C6: sizes 40 and 60 against cap 50 — the older file goes and
the remaining total is within the cap. -/
theorem cleanupBySize_cap_witness :
    sumSizes (cleanupBySize unlinkAllOk 50 [fNew, fOld]).1 ≤ 50 :=
  ((cleanupBySize_cap unlinkAllOk 50 [fNew, fOld]).2 (by decide) (by decide)).1

/-- Claim C10: for the count-cap and size-cap passes the registry entry after
the pass is independent of which deletions succeed (it equals the keep-list
chosen before any unlink), the returned integer never exceeds the number of
records dropped from the entry, and as soon as one dropped record's unlink
fails the returned integer is strictly smaller than the number of dropped
records. -/
theorem cleanup_policies_failure_accounting (ok ok2 : String → Bool)
    (maxC maxS : Int) (files : List FileInfo) :
    ((cleanupByCount ok maxC files).1 = (cleanupByCount ok2 maxC files).1 ∧
       (cleanupBySize ok maxS files).1 = (cleanupBySize ok2 maxS files).1) ∧
      ((cleanupByCount ok maxC files).2 ≤
          files.length - (cleanupByCount ok maxC files).1.length ∧
        (cleanupBySize ok maxS files).2 ≤
          files.length - (cleanupBySize ok maxS files).1.length) ∧
      ((∃ f ∈ files, f ∉ (cleanupByCount ok maxC files).1 ∧ ok f.path = false) →
          (cleanupByCount ok maxC files).2 <
            files.length - (cleanupByCount ok maxC files).1.length) ∧
      ((∃ f ∈ files, f ∉ (cleanupBySize ok maxS files).1 ∧ ok f.path = false) →
          (cleanupBySize ok maxS files).2 <
            files.length - (cleanupBySize ok maxS files).1.length) := by
  refine ⟨⟨cleanupByCount_fst_indep ok ok2 maxC files,
      cleanupBySize_fst_indep ok ok2 maxS files⟩, ⟨?_, ?_⟩, ?_, ?_⟩
  · by_cases h : (files.length : Int) ≤ maxC
    · simp [cleanupByCount, h]
    · simp only [cleanupByCount, if_neg h]
      exact dropTake_le ok files _
  · by_cases h : sumSizes files ≤ maxS
    · simp [cleanupBySize, h]
    · simp only [cleanupBySize, if_neg h]
      exact dropTake_le ok files _
  · intro hx
    by_cases h : (files.length : Int) ≤ maxC
    · simp only [cleanupByCount, if_neg, h, if_pos] at hx
      obtain ⟨f, hf, hnf, _⟩ := hx
      exact absurd hf hnf
    · simp only [cleanupByCount, if_neg h] at hx ⊢
      exact dropTake_account ok files _ hx
  · intro hx
    by_cases h : sumSizes files ≤ maxS
    · simp only [cleanupBySize, if_neg, h, if_pos] at hx
      obtain ⟨f, hf, hnf, _⟩ := hx
      exact absurd hf hnf
    · simp only [cleanupBySize, if_neg h] at hx ⊢
      exact dropTake_account ok files _ hx

/-- Witness for C10: two files, cap 1, and the unlink of the dropped older
file fails — the pass reports strictly fewer deletions (0) than the one
record it dropped from the entry. -/
theorem cleanup_policies_failure_accounting_witness :
    (cleanupByCount unlinkFailOld 1 [fNew, fOld]).2 <
      [fNew, fOld].length - (cleanupByCount unlinkFailOld 1 [fNew, fOld]).1.length :=
  (cleanup_policies_failure_accounting unlinkFailOld unlinkAllOk 1 50
    [fNew, fOld]).2.2.1 (by decide)

/-- Claim C7: persisting any Registry to the state document and loading it
back (before any rescan) reproduces the Registry exactly — every directory's
records round-trip field for field. -/
theorem saveState_loadState_roundtrip (reg : Registry) :
    loadStateDoc (saveStateDoc reg) = some reg := by
  unfold loadStateDoc saveStateDoc
  exact loadEntries_save reg

/-- Claim C3, counterexample: a malformed (non-numeric) value for the
max-files-per-directory key does not fall back to the documented default —
configuration loading raises (`ValueError` out of `int(...)`), aborting
daemon startup. -/
theorem loadConfig_malformed_raises_cex :
    loadConfig [("MAX_FILES_PER_DIR", "abc")] =
        Except.error "MAX_FILES_PER_DIR" ∧
      (loadConfig [("MAX_FILES_PER_DIR", "abc")]).isOk = false := by decide

/-- Claim C3 as amended: only the retention value is protected — a malformed
retention string falls back to the default of 3 days with a warning and
configuration still loads; a malformed value for any of the other numeric
keys (max files, max disk size, scan interval, heartbeat interval, CPU
threshold, heartbeat timeout) raises an unhandled exception and aborts
daemon startup. -/
theorem loadConfig_error_behavior :
    (∀ v : String, loadConfig [("RETENTION_DAYS", v)] =
        (loadConfig []).map
          (fun c => { c with retention_seconds := parseRetentionTime v })) ∧
      parseRetentionTime "not-a-duration" = 3 * 86400 ∧
      loadConfig [("MAX_FILES_PER_DIR", "ten")] = Except.error "MAX_FILES_PER_DIR" ∧
      loadConfig [("MAX_DISK_SIZE_MB", "ten")] = Except.error "MAX_DISK_SIZE_MB" ∧
      loadConfig [("SCAN_INTERVAL", "ten")] = Except.error "SCAN_INTERVAL" ∧
      loadConfig [("HEARTBEAT_INTERVAL", "ten")] =
        Except.error "HEARTBEAT_INTERVAL" ∧
      loadConfig [("CPU_THRESHOLD", "high")] = Except.error "CPU_THRESHOLD" ∧
      loadConfig [("HEARTBEAT_TIMEOUT", "ten")] =
        Except.error "HEARTBEAT_TIMEOUT" :=
  ⟨fun _ => rfl, by decide, by decide, by decide, by decide, by decide,
    by decide, by decide⟩

/-- Claim C4, code-bug evidence: take a worker that is alive but stalled
(last activity 0, observed at time 1000, timeout 600).  The supervisor tick
takes the restart branch: `_stop_cleanup_thread` permanently clears
`self.running` and `_start_cleanup_thread` never sets it, so although a fresh
thread object exists (`cleanup_alive = true`), its `while self.running` loop
exits immediately: the replacement executes zero cleanup cycles no matter how
long it lives — while a worker observing `running = true` performs one cycle
per loop iteration. -/
theorem stalled_restart_runs_no_cycles (fuel : Nat) :
    (heartbeatMonitorTick 600 1000
        { running := true, cleanup_alive := true, last_heartbeat := 0 }).running
        = false ∧
      (heartbeatMonitorTick 600 1000
        { running := true, cleanup_alive := true, last_heartbeat := 0 }).cleanup_alive
        = true ∧
      cleanupLoopCycles fuel
        (heartbeatMonitorTick 600 1000
          { running := true, cleanup_alive := true, last_heartbeat := 0 }).running
        = 0 ∧
      cleanupLoopCycles fuel true = fuel := by
  refine ⟨rfl, rfl, ?_, cleanupLoopCycles_running fuel⟩
  cases fuel <;> rfl
